import Mathlib

/-!
# Verification of the photo-validation pipeline

Shallow embedding of the validation core of the Diia AdAstrum photo
validation service (`app/core/errors.py`, `app/core/pipeline.py`, and the
validator stages `step1_format.py`, `step2_quality.py`, `step4_pose.py`,
`step5_geometry.py`, `step7_accessories.py`), together with theorems that
settle the frozen claims about that code.

Conventions used throughout:

* Python floats are modelled as `ℚ` (all arithmetic the claims touch is
  exact at the precision the claims speak about); `numpy` uint8 pixels are
  modelled as `ℚ`-valued pixel functions.
* Python dicts are modelled as insertion-ordered association lists
  (`List (String × _)`) with `dictGet`/`dictSet`/`dictUpdate` mirroring
  `d[k]`, `d[k] = v` and `d.update(m)`.
* A stage's possibly-raising `validate` call is modelled as a value of
  `Except String ValidationResult`; the pipeline orchestrator's
  `try/except` is a `match` on that value.
* External collaborators (PIL format sniffing, cv2 decoding, the face
  mesh, the VLM) are inputs of the embedded functions, exactly at the
  boundary where the Python code consumes their output.
* Human-readable message strings that interpolate formatted floats
  (`f"... {x:.1f} ..."`) are modelled by a plain `toString` rendering of
  the rational; no claim depends on the digits of a formatted float.
-/

namespace PhotoVal

/-! ## `app/core/errors.py`: error codes, messages, `ValidationResult` -/

/-- `ErrorCode` enumeration from `app/core/errors.py`. -/
inductive ErrorCode where
  | WRONG_ASPECT : ErrorCode
  | RESOLUTION_TOO_LOW : ErrorCode
  | UNSUPPORTED_FORMAT : ErrorCode
  | LOW_QUALITY : ErrorCode
  | INSUFFICIENT_LIGHTING : ErrorCode
  | OVEREXPOSED : ErrorCode
  | STRONG_SHADOWS : ErrorCode
  | IMAGE_BLURRY : ErrorCode
  | LOW_CONTRAST : ErrorCode
  | NO_FACE_DETECTED : ErrorCode
  | MULTIPLE_FACES : ErrorCode
  | HEAD_TILTED : ErrorCode
  | FACE_NOT_STRAIGHT : ErrorCode
  | FACE_TOO_SMALL : ErrorCode
  | FACE_TOO_CLOSE : ErrorCode
  | FACE_NOT_CENTERED : ErrorCode
  | HAIR_COVERS_FACE : ErrorCode
  | BACKGROUND_NOT_UNIFORM : ErrorCode
  | EXTRANEOUS_PEOPLE : ErrorCode
  | EXTRANEOUS_OBJECTS : ErrorCode
  | ACCESSORIES_DETECTED : ErrorCode
  | FILTERS_DETECTED : ErrorCode
deriving DecidableEq, Repr

/-- The string value of each enum member (`ErrorCode.WRONG_ASPECT_RATIO = "wrong_aspect_ratio"` etc.). -/
def ErrorCode.value : ErrorCode → String
  | .WRONG_ASPECT => "wrong_aspect_ratio"
  | .RESOLUTION_TOO_LOW => "resolution_too_low"
  | .UNSUPPORTED_FORMAT => "unsupported_file_format"
  | .LOW_QUALITY => "low_quality_or_too_compressed"
  | .INSUFFICIENT_LIGHTING => "insufficient_lighting"
  | .OVEREXPOSED => "overexposed_or_too_bright"
  | .STRONG_SHADOWS => "strong_shadows_on_face"
  | .IMAGE_BLURRY => "image_blurry_or_out_of_focus"
  | .LOW_CONTRAST => "low_contrast"
  | .NO_FACE_DETECTED => "no_face_detected"
  | .MULTIPLE_FACES => "more_than_one_person_in_photo"
  | .HEAD_TILTED => "head_is_tilted"
  | .FACE_NOT_STRAIGHT => "face_not_looking_straight_at_camera"
  | .FACE_TOO_SMALL => "face_too_small_in_frame"
  | .FACE_TOO_CLOSE => "face_too_close_or_cropped"
  | .FACE_NOT_CENTERED => "face_not_centered"
  | .HAIR_COVERS_FACE => "hair_covers_part_of_face"
  | .BACKGROUND_NOT_UNIFORM => "background_not_uniform"
  | .EXTRANEOUS_PEOPLE => "extraneous_people_in_background"
  | .EXTRANEOUS_OBJECTS => "extraneous_objects_in_background"
  | .ACCESSORIES_DETECTED => "accessories_detected"
  | .FILTERS_DETECTED => "filters_or_heavy_editing_detected"

/-- `ERROR_MESSAGES` dictionary: the fixed default message of every code. -/
def ERROR_MESSAGES : ErrorCode → String
  | .WRONG_ASPECT => "Image must have a 2:3 aspect ratio (portrait orientation)"
  | .RESOLUTION_TOO_LOW => "Image resolution is too low. Minimum 600px required"
  | .UNSUPPORTED_FORMAT => "Only JPEG and PNG formats are supported"
  | .LOW_QUALITY => "Image quality is too low or heavily compressed"
  | .INSUFFICIENT_LIGHTING => "Insufficient lighting. Please take photo in better lighting"
  | .OVEREXPOSED => "Image is overexposed or too bright"
  | .STRONG_SHADOWS => "Strong shadows detected on face. Use even lighting"
  | .IMAGE_BLURRY => "Image is blurry or out of focus"
  | .LOW_CONTRAST => "Image has very low contrast"
  | .NO_FACE_DETECTED => "No face detected in the image"
  | .MULTIPLE_FACES => "More than one person detected in the photo"
  | .HEAD_TILTED => "Head is tilted. Please keep your head straight"
  | .FACE_NOT_STRAIGHT => "Please look straight at the camera"
  | .FACE_TOO_SMALL => "Face is too small in the frame. Move closer to the camera"
  | .FACE_TOO_CLOSE => "Face is too close or cropped. Move back slightly"
  | .FACE_NOT_CENTERED => "Face is not centered. Adjust camera position"
  | .HAIR_COVERS_FACE => "Hair covers part of the face. Please move hair away from face"
  | .BACKGROUND_NOT_UNIFORM => "Background is not uniform. Use a plain background"
  | .EXTRANEOUS_PEOPLE => "Additional people detected in background"
  | .EXTRANEOUS_OBJECTS => "Extraneous objects detected in background"
  | .ACCESSORIES_DETECTED => "Accessories detected (glasses, hat, etc.). Please remove them"
  | .FILTERS_DETECTED => "Filters or heavy editing detected. Use original unedited photo"

/-- `ValidationError`: `{code, message}`, immutable once created. -/
structure ValidationError where
  code : ErrorCode
  message : String
deriving DecidableEq, Repr

/-- `ValidationError.__init__`: `self.message = custom_message or ERROR_MESSAGES.get(code, ...)`.
Python's `or` falls through to the default message when `custom_message` is
`None` *or* the empty string (both falsy). -/
def mkValidationError (code : ErrorCode) (customMessage : Option String) : ValidationError :=
  { code := code
    message :=
      match customMessage with
      | some m => if m = "" then ERROR_MESSAGES code else m
      | none => ERROR_MESSAGES code }

/-- `ValidationError.to_dict()`: `{"code": self.code.value, "message": self.message}`. -/
def ValidationError.toDict (e : ValidationError) : String × String :=
  (e.code.value, e.message)

/-- Metadata values as they occur in the stage metadata dicts the claims
touch: ints (numpy shapes), floats (scores/metrics), booleans, strings and
`None`. -/
inductive MetaValue where
  | vNat (n : Nat) : MetaValue
  | vRat (q : ℚ) : MetaValue
  | vBool (b : Bool) : MetaValue
  | vStr (s : String) : MetaValue
  | vNone : MetaValue
deriving DecidableEq, Repr

/-- A Python dict modelled as an insertion-ordered association list. -/
abbrev Dict (α : Type) := List (String × α)

/-- `Metadata`: a stage's `result.metadata` dict. -/
abbrev Metadata := Dict MetaValue

/-- `d.get(k)` / `d[k]`: first binding of the key, if any. -/
def dictGet {α : Type} (d : Dict α) (k : String) : Option α :=
  (d.find? (fun kv => kv.1 = k)).map (fun kv => kv.2)

/-- `d[k] = v`: overwrite the existing binding in place, else append. -/
def dictSet {α : Type} (d : Dict α) (k : String) (v : α) : Dict α :=
  if d.any (fun kv => kv.1 = k) then
    d.map (fun kv => if kv.1 = k then (k, v) else kv)
  else d ++ [(k, v)]

/-- `d.update(m)`: set every binding of `m` in `d`, in order. -/
def dictUpdate {α : Type} (d m : Dict α) : Dict α :=
  m.foldl (fun acc kv => dictSet acc kv.1 kv.2) d

/-- `ValidationResult`: mutable accumulator of a single stage invocation. -/
structure ValidationResult where
  passed : Bool
  errors : List ValidationError
  metadata : Metadata
deriving DecidableEq, Repr

/-- `ValidationResult.__init__(passed=True, errors=None, metadata=None)`:
`self.errors = errors or []`, `self.metadata = metadata or {}` (the general
Python constructor with all of its arguments). -/
def mkValidationResult (passed : Bool) (errors : Option (List ValidationError))
    (metadata : Option Metadata) : ValidationResult :=
  { passed := passed
    errors := errors.getD []
    metadata := metadata.getD [] }

/-- `BaseValidator._create_result()` as every stage calls it: defaults
`passed=True`, no errors, empty metadata. -/
def createResult : ValidationResult :=
  mkValidationResult true none none

/-- `ValidationResult.add_error(code, message=None)`: sets `passed = False`
and appends one `ValidationError` built from the code and optional custom
message. -/
def ValidationResult.addError (r : ValidationResult) (code : ErrorCode)
    (message : Option String) : ValidationResult :=
  { r with passed := false, errors := r.errors ++ [mkValidationError code message] }

/-- The codes of a result's errors, in order. -/
def ValidationResult.codes (r : ValidationResult) : List ErrorCode :=
  r.errors.map (fun e => e.code)

/-! ## `config.py`: the threshold constants the embedded stages read.

Decimal literals are the rationals the Python source writes; names ending
in a suffix the verification toolchain reserves are shortened (e.g.
`TARGET_ASPECT_RATIO` becomes `TARGET_ASPECT`). -/

namespace Config

def ALLOWED_FORMATS : List String := ["JPEG", "PNG"]

/-- `TARGET_ASPECT_RATIO = 1.25` -/
def TARGET_ASPECT : ℚ := 5 / 4

/-- `ASPECT_RATIO_TOLERANCE = 0.35` -/
def ASPECT_TOLERANCE : ℚ := 7 / 20

/-- `MIN_RESOLUTION = 600` -/
def MIN_RESOLUTION : Nat := 600

/-- `JPEG_BLOCKINESS_THRESHOLD = 15.0` -/
def JPEG_BLOCKINESS_THRESHOLD : ℚ := 15

/-- `BLUR_THRESHOLD = 100.0` -/
def BLUR_THRESHOLD : ℚ := 100

/-- `MIN_CONTRAST = 30.0` (minimum standard deviation of luminance) -/
def MIN_CONTRAST : ℚ := 30

/-- `BRIGHTNESS_LOW_THRESHOLD = 50` -/
def BRIGHTNESS_LOW_THRESHOLD : ℚ := 50

/-- `BRIGHTNESS_HIGH_THRESHOLD = 220` -/
def BRIGHTNESS_HIGH_THRESHOLD : ℚ := 220

/-- `SHADOW_DIFFERENCE_THRESHOLD = 60` -/
def SHADOW_DIFFERENCE_THRESHOLD : ℚ := 60

/-- `MAX_YAW = 15.0` degrees -/
def MAX_YAW : ℚ := 15

/-- `MAX_PITCH = 10.0` degrees -/
def MAX_PITCH : ℚ := 10

/-- `MAX_ROLL = 20.0` degrees -/
def MAX_ROLL : ℚ := 20

/-- `MIN_FACE_AREA_RATIO = 0.15` -/
def MIN_FACE_AREA : ℚ := 3 / 20

/-- `MAX_FACE_AREA_RATIO = 0.7` -/
def MAX_FACE_AREA : ℚ := 7 / 10

/-- `FACE_CENTER_TOLERANCE = 0.15` -/
def FACE_CENTER_TOLERANCE : ℚ := 3 / 20

/-- `HAIR_OCCLUSION_THRESHOLD = 0.3` -/
def HAIR_OCCLUSION_THRESHOLD : ℚ := 3 / 10

end Config

/-! ## Grayscale images

`cv2.imdecode(..., cv2.IMREAD_GRAYSCALE)` / `cv2.cvtColor(..., COLOR_BGR2GRAY)`
produce a `h × w` uint8 array; we model it as a pixel function into `ℚ`
(the code immediately promotes pixels with `astype(float)` / numpy float
reductions wherever the claims look at them). -/

structure GrayImage where
  h : Nat
  w : Nat
  pix : Nat → Nat → ℚ

/-- Sum of `f 0, …, f (n-1)`. -/
def sumRange (n : Nat) (f : Nat → ℚ) : ℚ :=
  ((List.range n).map f).sum

/-- `gray_image.size = h * w`. -/
def GrayImage.size (img : GrayImage) : Nat := img.h * img.w

/-- Sum of all pixels of the image. -/
def GrayImage.total (img : GrayImage) : ℚ :=
  sumRange img.h (fun y => sumRange img.w (fun x => img.pix y x))

/-- `np.mean(gray_image)`. -/
def GrayImage.mean (img : GrayImage) : ℚ :=
  img.total / (img.size : ℚ)

/-- `np.sum(gray_image < t)` resp. `np.sum(gray_image > t)` — the number of
pixels satisfying a predicate. -/
def GrayImage.countP (img : GrayImage) (p : ℚ → Prop) [DecidablePred p] : Nat :=
  (((List.range img.h).map
    (fun y => ((List.range img.w).filter (fun x => decide (p (img.pix y x)))).length)).sum)

/-- `np.std(gray_image) ** 2`: the population variance
`mean((x - mean(x))²)`.  The source compares `np.std` (the square root of
this) against `MIN_CONTRAST`; since both sides of that comparison are
nonnegative, `std < MIN_CONTRAST ↔ variance < MIN_CONTRAST²`, and the
embedding phrases the contrast check through the variance so that it stays
inside exact rational arithmetic. -/
def GrayImage.variance (img : GrayImage) : ℚ :=
  sumRange img.h (fun y => sumRange img.w (fun x => (img.pix y x - img.mean) ^ 2)) /
    (img.size : ℚ)

/-! ## `step2_quality.py`: `QualityValidator._check_exposure_contrast` -/

/-- Fraction of pixels strictly below `BRIGHTNESS_LOW_THRESHOLD`:
`np.sum(gray_image < config.BRIGHTNESS_LOW_THRESHOLD) / gray_image.size`. -/
def lowPixelFrac (img : GrayImage) : ℚ :=
  (img.countP (fun v => v < Config.BRIGHTNESS_LOW_THRESHOLD) : ℚ) / (img.size : ℚ)

/-- Fraction of pixels strictly above `BRIGHTNESS_HIGH_THRESHOLD`:
`np.sum(gray_image > config.BRIGHTNESS_HIGH_THRESHOLD) / gray_image.size`. -/
def highPixelFrac (img : GrayImage) : ℚ :=
  (img.countP (fun v => Config.BRIGHTNESS_HIGH_THRESHOLD < v) : ℚ) / (img.size : ℚ)

/-- `QualityValidator._check_exposure_contrast(gray_image, result)`:
runs the underexposure, overexposure and low-contrast checks in that order,
each appending its own error when its condition holds, and returns
`(mean_brightness, contrast)` alongside the updated result.  The contrast
comparison `np.std(gray) < MIN_CONTRAST` is embedded as
`variance < MIN_CONTRAST ^ 2` (see `GrayImage.variance`). -/
def checkExposureContrast (img : GrayImage) (result : ValidationResult) :
    (ℚ × ℚ) × ValidationResult :=
  let meanBrightness := img.mean
  let result :=
    if lowPixelFrac img > 1 / 2 ∨ meanBrightness < 60 then
      result.addError .INSUFFICIENT_LIGHTING
        (some ("Image is underexposed (brightness: " ++ toString meanBrightness ++ ")"))
    else result
  let result :=
    if highPixelFrac img > 1 / 2 ∨ meanBrightness > 200 then
      result.addError .OVEREXPOSED
        (some ("Image is overexposed (brightness: " ++ toString meanBrightness ++ ")"))
    else result
  let result :=
    if img.variance < Config.MIN_CONTRAST ^ 2 then
      result.addError .LOW_CONTRAST
        (some ("Image has very low contrast (contrast: " ++ toString img.variance ++ ")"))
    else result
  ((meanBrightness, img.variance), result)

/-! ## `step4_pose.py`: `PoseEstimationValidator._check_pose_angles` -/

/-- `PoseEstimationValidator._check_pose_angles(yaw, pitch, roll, result)`:
independently thresholds `|yaw| > MAX_YAW`, `|pitch| > MAX_PITCH` and
`|roll| > MAX_ROLL`; yaw and pitch violations each add a
`FACE_NOT_STRAIGHT` error, a roll violation adds a `HEAD_TILTED` error. -/
def checkPoseAngles (yaw pitch roll : ℚ) (result : ValidationResult) : ValidationResult :=
  let result :=
    if |yaw| > Config.MAX_YAW then
      result.addError .FACE_NOT_STRAIGHT
        (some ("Head is turned " ++ toString |yaw| ++ " deg (max: " ++
          toString Config.MAX_YAW ++ " deg)"))
    else result
  let result :=
    if |pitch| > Config.MAX_PITCH then
      result.addError .FACE_NOT_STRAIGHT
        (some ("Head is tilted up/down " ++ toString |pitch| ++ " deg (max: " ++
          toString Config.MAX_PITCH ++ " deg)"))
    else result
  let result :=
    if |roll| > Config.MAX_ROLL then
      result.addError .HEAD_TILTED
        (some ("Head is tilted " ++ toString |roll| ++ " deg (max: " ++
          toString Config.MAX_ROLL ++ " deg)"))
    else result
  result

/-! ## `step5_geometry.py`: `GeometryValidator._check_face_centering` -/

/-- A face bounding box `(x, y, w, h)` as the face detector reports it. -/
structure BBox where
  x : ℚ
  y : ℚ
  w : ℚ
  h : ℚ

/-- `GeometryValidator._check_face_centering(bbox, img_width, img_height, result)`:
computes the face-box center, the image center, the absolute offsets as
fractions of the image dimensions, adds a single `FACE_NOT_CENTERED` error
when either fractional offset exceeds `FACE_CENTER_TOLERANCE`, and returns
`(offset_x, offset_y)` alongside the updated result. -/
def checkFaceCentering (bbox : BBox) (imgWidth imgHeight : Nat)
    (result : ValidationResult) : (ℚ × ℚ) × ValidationResult :=
  let faceCenterX := bbox.x + bbox.w / 2
  let faceCenterY := bbox.y + bbox.h / 2
  let imgCenterX := (imgWidth : ℚ) / 2
  let imgCenterY := (imgHeight : ℚ) / 2
  let offsetX := |faceCenterX - imgCenterX| / (imgWidth : ℚ)
  let offsetY := |faceCenterY - imgCenterY| / (imgHeight : ℚ)
  let result :=
    if offsetX > Config.FACE_CENTER_TOLERANCE ∨ offsetY > Config.FACE_CENTER_TOLERANCE then
      result.addError .FACE_NOT_CENTERED
        (some ("Face is off-center (offset: " ++ toString offsetX ++ ", " ++
          toString offsetY ++ ")"))
    else result
  ((offsetX, offsetY), result)

/-! ## `step1_format.py`: the Format stage -/

/-- Python `range(a, b, s)` for a positive step `s`: `a, a+s, …` while `< b`. -/
def pyRange (a b s : Nat) : List Nat :=
  (List.range ((b - a + s - 1) / s)).map (fun k => a + k * s)

/-- Mean absolute difference across the horizontal boundary above row `y`:
`np.mean(np.abs(gray[y, :] - gray[y - 1, :]))`. -/
def rowBoundaryMean (img : GrayImage) (y : Nat) : ℚ :=
  sumRange img.w (fun x => |img.pix y x - img.pix (y - 1) x|) / (img.w : ℚ)

/-- Mean absolute difference across the vertical boundary left of column `x`:
`np.mean(np.abs(gray[:, x] - gray[:, x - 1]))`. -/
def colBoundaryMean (img : GrayImage) (x : Nat) : ℚ :=
  sumRange img.h (fun y => |img.pix y x - img.pix y (x - 1)|) / (img.h : ℚ)

/-- The 8-pixel-aligned horizontal boundary rows the stage visits:
`range(8, h - 8, 8)`. -/
def hBoundaries (img : GrayImage) : List Nat := pyRange 8 (img.h - 8) 8

/-- The 8-pixel-aligned vertical boundary columns the stage visits:
`range(8, w - 8, 8)`. -/
def vBoundaries (img : GrayImage) : List Nat := pyRange 8 (img.w - 8) 8

/-- `FormatValidator._calculate_blockiness(gray_image)`: returns `0.0` for
images smaller than `16` in either dimension; otherwise accumulates the
per-boundary means along each axis, and when both axes have at least one
boundary returns `(horizontal_diff / count_h + vertical_diff / count_v) / 2`,
else `0.0`. -/
def calculateBlockiness (img : GrayImage) : ℚ :=
  if img.h < 16 ∨ img.w < 16 then 0
  else
    let ys := hBoundaries img
    let xs := vBoundaries img
    let horizontalDiff := (ys.map (rowBoundaryMean img)).sum
    let verticalDiff := (xs.map (colBoundaryMean img)).sum
    if 0 < ys.length ∧ 0 < xs.length then
      (horizontalDiff / (ys.length : ℚ) + verticalDiff / (xs.length : ℚ)) / 2
    else 0

/-- Mean of a list of rationals. -/
def listMean (l : List ℚ) : ℚ := l.sum / (l.length : ℚ)

/-- Modelled from the spec (claim wording, for refinement comparison with
`calculateBlockiness`): "the average over all horizontal and vertical
boundary lines of the mean absolute pixel difference across each boundary
line" — a single pooled average in which every boundary line weighs the
same, over the same 8-aligned boundaries with the same margins. -/
def blockinessPooledSpec (img : GrayImage) : ℚ :=
  listMean ((hBoundaries img).map (rowBoundaryMean img) ++
    (vBoundaries img).map (colBoundaryMean img))

/-- The per-axis reading of the blockiness metric (amended claim): the mean
of the horizontal boundary-line means and the mean of the vertical
boundary-line means, averaged. -/
def blockinessAxisMeansSpec (img : GrayImage) : ℚ :=
  (listMean ((hBoundaries img).map (rowBoundaryMean img)) +
    listMean ((vBoundaries img).map (colBoundaryMean img))) / 2

/-- `FormatValidator._check_jpeg_quality(image_bytes, result)`: the
`cv2.imdecode` outcome is the `decoded` input (`none` models a `None`
return, upon which the check silently returns).  Adds a `LOW_QUALITY` error
exactly when the computed blockiness strictly exceeds
`JPEG_BLOCKINESS_THRESHOLD`.  The Python body is wrapped in a
`try/except: pass`; the embedding is a total function. -/
def checkJpegQuality (decoded : Option GrayImage) (result : ValidationResult) :
    ValidationResult :=
  match decoded with
  | none => result
  | some img =>
      if calculateBlockiness img > Config.JPEG_BLOCKINESS_THRESHOLD then
        result.addError .LOW_QUALITY
          (some ("Image appears heavily compressed (blockiness: " ++
            toString (calculateBlockiness img) ++ ")"))
      else result

/-- `FormatValidator._check_format(image_bytes, result)`: the PIL sniffing
outcome is the `sniff` input — an exception message, or the sniffed format
(possibly `None`).  Adds an `UNSUPPORTED_FORMAT` error when sniffing raised
or the sniffed format is not in the allow-list, and returns the sniffed
format (`none` on an exception, like the Python `return None`). -/
def checkFormat (sniff : Except String (Option String)) (result : ValidationResult) :
    Option String × ValidationResult :=
  match sniff with
  | .error e =>
      (none, result.addError .UNSUPPORTED_FORMAT
        (some ("Could not determine image format: " ++ e)))
  | .ok fmt =>
      let allowed : Bool := match fmt with
        | some f => decide (f ∈ Config.ALLOWED_FORMATS)
        | none => false
      (fmt,
        if allowed then result
        else
          result.addError .UNSUPPORTED_FORMAT
            (some ("Format " ++ (fmt.getD "None") ++ " not supported. Use JPEG or PNG.")))

/-- `calculate_aspect_ratio(width, height)` from `app/utils/image_utils.py`:
`max(width, height) / min(width, height)`. -/
def calcAspect (width height : Nat) : ℚ :=
  ((max width height : Nat) : ℚ) / ((min width height : Nat) : ℚ)

/-- `FormatValidator._check_aspect_ratio(width, height, result)`. -/
def checkAspect (width height : Nat) (result : ValidationResult) : ValidationResult :=
  let a := calcAspect width height
  if Config.TARGET_ASPECT - Config.ASPECT_TOLERANCE ≤ a ∧
      a ≤ Config.TARGET_ASPECT + Config.ASPECT_TOLERANCE then
    result
  else
    result.addError .WRONG_ASPECT
      (some ("Aspect ratio " ++ toString a ++ " is outside acceptable range"))

/-- `FormatValidator._check_resolution(width, height, result)`. -/
def checkResolution (width height : Nat) (result : ValidationResult) : ValidationResult :=
  if min width height < Config.MIN_RESOLUTION then
    result.addError .RESOLUTION_TOO_LOW
      (some ("Minimum dimension " ++ toString (min width height) ++
        "px is below required 600px"))
  else result

/-- `FormatValidator.validate(image, context)`.  Inputs at the collaborator
boundary: the decoded image's dimensions `width`/`height`, whether the
context carries `image_bytes` (`hasBytes`), the PIL format-sniff outcome and
the grayscale `cv2.imdecode` outcome for the JPEG-quality check.  The JPEG
check runs only inside the `hasBytes` branch and only when the sniffed
format equals `"JPEG"`; the metadata dict is assigned at the end,
unconditionally, with exactly the five dimension keys. -/
def formatValidate (width height : Nat) (hasBytes : Bool)
    (sniff : Except String (Option String)) (decoded : Option GrayImage) :
    ValidationResult :=
  let result := createResult
  let result :=
    if hasBytes then
      let (fmt, r) := checkFormat sniff result
      if fmt = some "JPEG" then checkJpegQuality decoded r else r
    else result
  let result := checkAspect width height result
  let result := checkResolution width height result
  { result with
    metadata := [
      ("width", .vNat width),
      ("height", .vNat height),
      ("aspect_ratio", .vRat (calcAspect width height)),
      ("min_dimension", .vNat (min width height)),
      ("max_dimension", .vNat (max width height))] }

/-! ## `app/core/pipeline.py`: the orchestrator

A stage behavior is what `validator.validate(image, context)` does for the
one image of this request: a function from the shared context to either a
`ValidationResult` or a raised exception (its message).  The orchestrator's
`try/except` is the `match` on that outcome. -/

/-- Outcome of one `validator.validate(image, context)` call. -/
abbrev StageOutcome := Except String ValidationResult

/-- A stage's behavior on the current request's image. -/
abbrev Behavior := Metadata → StageOutcome

/-- The orchestrator's loop accumulators: `all_errors`, `all_metadata`, and
the shared `context`. -/
structure PipeAcc where
  errors : List (String × String)
  meta : Dict Metadata
  ctx : Metadata

/-- The metadata marker the orchestrator stores for a stage that raised:
`{'error': str(e), 'validator_failed': True}`. -/
def validatorFailedMarker (e : String) : Metadata :=
  [("error", .vStr e), ("validator_failed", .vBool true)]

/-- The `for name, validator in self.validators:` loop of
`ValidationPipeline.validate`: on a normal result, extend `all_errors` when
the stage did not pass, store the stage metadata under the stage name,
merge it into the context, and break after a failed `format` or `face`
stage; on an exception, store the `validator_failed` marker as the stage's
metadata and continue. -/
def runStages : List (String × Behavior) → PipeAcc → PipeAcc
  | [], acc => acc
  | (name, beh) :: rest, acc =>
    match beh acc.ctx with
    | .ok result =>
        let errors := acc.errors ++
          (if result.passed then [] else result.errors.map ValidationError.toDict)
        let meta := dictSet acc.meta name result.metadata
        let ctx := dictUpdate acc.ctx result.metadata
        if (name = "format" ∧ result.passed = false) ∨
            (name = "face" ∧ result.passed = false) then
          ⟨errors, meta, ctx⟩
        else
          runStages rest ⟨errors, meta, ctx⟩
    | .error e =>
        runStages rest
          { acc with meta := dictSet acc.meta name (validatorFailedMarker e) }

/-- The orchestrator's context after one non-breaking stage outcome: merged
on a normal result, untouched on an exception. -/
def ctxAfter (ctx : Metadata) (o : StageOutcome) : Metadata :=
  match o with
  | .ok r => dictUpdate ctx r.metadata
  | .error _ => ctx

/-- The response dict of `ValidationPipeline.validate`. -/
structure PipeResponse where
  status : String
  errors : List (String × String)
  metadata : Dict Metadata

/-- The seeded context `{'image_bytes': image_bytes}`. -/
def seedCtx (bytes : String) : Metadata := [("image_bytes", .vStr bytes)]

/-- Does a stage outcome count as "the stage returned a failed result"?
(An exception is not a returned result.) -/
def isOkFailed : StageOutcome → Bool
  | .ok r => !r.passed
  | .error _ => false

/-- Along a run from context `ctx`, no stage triggers the hard stop: every
`format`/`face` stage that returns a result returns a passing one (raising
or any other stage's failure is allowed). -/
def noHardStop : List (String × Behavior) → Metadata → Prop
  | [], _ => True
  | (name, b) :: rest, ctx =>
    match b ctx with
    | .ok r =>
        ((name = "format" ∨ name = "face") → r.passed = true) ∧
          noHardStop rest (dictUpdate ctx r.metadata)
    | .error _ => noHardStop rest ctx

/-- `ValidationPipeline.validate(image_data)`: decode (outcome supplied at
the collaborator boundary as the raw bytes or the exception message), seed
the context with `image_bytes`, run the stages, and return
`'success' if len(all_errors) == 0 else 'fail'` with the collected errors
and metadata. -/
def pipelineValidate (decodeOutcome : Except String String)
    (stages : List (String × Behavior)) : PipeResponse :=
  match decodeOutcome with
  | .error e =>
      ⟨"fail", [("invalid_image", "Failed to decode image: " ++ e)], []⟩
  | .ok bytes =>
      let acc := runStages stages ⟨[], [], seedCtx bytes⟩
      ⟨if acc.errors.length = 0 then "success" else "fail", acc.errors, acc.meta⟩

/-- The full-mode stage list `_initialize_validators` builds:
format, quality, face, pose, geometry, background. -/
def fullStages (bf bq bfa bp bg bb : Behavior) : List (String × Behavior) :=
  [("format", bf), ("quality", bq), ("face", bfa),
   ("pose", bp), ("geometry", bg), ("background", bb)]

/-- The `guidance` dict `validate_stream` assembles, with one optional field
per key it may set (`none` = key absent; the inner `Option` is the
possibly-`None` value of a `metadata.get`). -/
structure StreamGuidance where
  faceBbox : Option (Option MetaValue)
  pose : Option (Option MetaValue × Option MetaValue × Option MetaValue)
  centering : Option (Option MetaValue × Option MetaValue)
  faceSizeFrac : Option (Option MetaValue)

/-- The empty guidance dict. -/
def StreamGuidance.empty : StreamGuidance := ⟨none, none, none, none⟩

/-- Loop accumulators of `validate_stream`. -/
structure StreamAcc where
  errors : List (String × String)
  landmarks : Option MetaValue
  guidance : StreamGuidance
  ctx : Metadata

/-- The stage loop of `ValidationPipeline.validate_stream`: like the full
loop but with no metadata response dict, UI guidance extraction for the
`face`, `pose` and `geometry` stages, and a bare `pass` on exceptions. -/
def runStreamStages : List (String × Behavior) → StreamAcc → StreamAcc
  | [], acc => acc
  | (name, beh) :: rest, acc =>
    match beh acc.ctx with
    | .ok result =>
        let errors := acc.errors ++
          (if result.passed then [] else result.errors.map ValidationError.toDict)
        let landmarks :=
          if name = "face" ∧ (dictGet result.metadata "landmarks").isSome then
            dictGet result.metadata "landmarks"
          else acc.landmarks
        let guidance :=
          if name = "face" ∧ (dictGet result.metadata "landmarks").isSome then
            { acc.guidance with faceBbox := some (dictGet result.metadata "face_bbox") }
          else acc.guidance
        let guidance :=
          if name = "pose" then
            { guidance with
              pose := some (dictGet result.metadata "yaw",
                dictGet result.metadata "pitch", dictGet result.metadata "roll") }
          else guidance
        let guidance :=
          if name = "geometry" then
            { guidance with
              centering := some (dictGet result.metadata "center_offset_x",
                dictGet result.metadata "center_offset_y"),
              faceSizeFrac := some (dictGet result.metadata "face_size_ratio") }
          else guidance
        let ctx := dictUpdate acc.ctx result.metadata
        if (name = "format" ∧ result.passed = false) ∨
            (name = "face" ∧ result.passed = false) then
          ⟨errors, landmarks, guidance, ctx⟩
        else
          runStreamStages rest ⟨errors, landmarks, guidance, ctx⟩
    | .error _ => runStreamStages rest acc

/-- The response dict of `ValidationPipeline.validate_stream`. -/
structure StreamResponse where
  status : String
  errors : List (String × String)
  landmarks : Option MetaValue
  guidance : StreamGuidance

/-- `ValidationPipeline.validate_stream(image_data)`: decode, filter out the
`background`/`accessories` stages, run the lightweight loop and return the
status/errors/landmarks/guidance payload. -/
def streamValidate (decodeOutcome : Except String String)
    (stages : List (String × Behavior)) : StreamResponse :=
  match decodeOutcome with
  | .error e =>
      ⟨"fail", [("invalid_image", "Failed to decode image: " ++ e)],
        none, StreamGuidance.empty⟩
  | .ok bytes =>
      let lightweight := stages.filter
        (fun s => ¬(s.1 = "background" ∨ s.1 = "accessories"))
      let acc := runStreamStages lightweight
        ⟨[], none, StreamGuidance.empty, seedCtx bytes⟩
      ⟨if acc.errors.length = 0 then "success" else "fail",
        acc.errors, acc.landmarks, acc.guidance⟩

/-! ## `step7_accessories.py`: response parsing

`AccessoriesValidator._parse_response` feeds the model's raw text to
`json.loads` on the first-`{`-to-last-`}` slice and falls back to keyword
matching.  `json.loads` is Python's standard library, not repository code;
`jsonLoads` below models it on the JSON subset these responses use
(objects, arrays, strings with simple escapes, integers and plain decimal
fractions, `true`/`false`/`null`) and rejects anything else — exactly the
all-or-nothing contract `_parse_response` relies on (success means the
whole candidate is one JSON value). -/

/-- A parsed JSON value. -/
inductive Json where
  | jNull : Json
  | jBool (b : Bool) : Json
  | jNum (q : ℚ) : Json
  | jStr (s : String) : Json
  | jArr (elems : List Json) : Json
  | jObj (fields : List (String × Json)) : Json

/-- Skip JSON whitespace. -/
def skipWs (s : List Char) : List Char := s.dropWhile Char.isWhitespace

/-- The unescaped form of `\c` escapes in JSON strings (subset: no `\u`). -/
def escChar (c : Char) : Option Char :=
  if c = '"' ∨ c = '\\' ∨ c = '/' then some c
  else if c = 'n' then some '\n'
  else if c = 't' then some '\t'
  else if c = 'r' then some '\r'
  else none

/-- Parse the body of a JSON string after the opening quote; returns the
string and the input following the closing quote. -/
def parseStringBody : List Char → Option (String × List Char)
  | [] => none
  | '"' :: rest => some ("", rest)
  | '\\' :: c :: rest => do
      let e ← escChar c
      let (str, r) ← parseStringBody rest
      pure (String.mk (e :: str.data), r)
  | c :: rest => do
      let (str, r) ← parseStringBody rest
      pure (String.mk (c :: str.data), r)

/-- The natural number a digit run denotes. -/
def digitsVal (ds : List Char) : Nat :=
  ds.foldl (fun acc c => acc * 10 + (c.toNat - '0'.toNat)) 0

/-- Parse a JSON number (integer or plain decimal fraction). -/
def parseNum (s : List Char) : Option (Json × List Char) :=
  let (neg, s1) := match s with
    | '-' :: r => (true, r)
    | _ => (false, s)
  let intDigits := s1.takeWhile Char.isDigit
  let s2 := s1.dropWhile Char.isDigit
  if intDigits.isEmpty then none
  else
    let intPart : ℚ := (digitsVal intDigits : ℚ)
    match s2 with
    | '.' :: r =>
        let fracDigits := r.takeWhile Char.isDigit
        let s3 := r.dropWhile Char.isDigit
        if fracDigits.isEmpty then none
        else
          let v := intPart + (digitsVal fracDigits : ℚ) / ((10 : ℚ) ^ fracDigits.length)
          some (.jNum (if neg then -v else v), s3)
    | _ => some (.jNum (if neg then -intPart else intPart), s2)

mutual

/-- Parse one JSON value; `fuel` bounds the recursion depth. -/
def parseVal : Nat → List Char → Option (Json × List Char)
  | 0, _ => none
  | fuel + 1, s =>
    match skipWs s with
    | '{' :: rest =>
        (match skipWs rest with
         | '}' :: r => some (.jObj [], r)
         | r => (parseFields fuel r).map (fun p => (.jObj p.1, p.2)))
    | '[' :: rest =>
        (match skipWs rest with
         | ']' :: r => some (.jArr [], r)
         | r => (parseElems fuel r).map (fun p => (.jArr p.1, p.2)))
    | '"' :: rest => (parseStringBody rest).map (fun p => (.jStr p.1, p.2))
    | 't' :: 'r' :: 'u' :: 'e' :: rest => some (.jBool true, rest)
    | 'f' :: 'a' :: 'l' :: 's' :: 'e' :: rest => some (.jBool false, rest)
    | 'n' :: 'u' :: 'l' :: 'l' :: rest => some (.jNull, rest)
    | s' => parseNum s'

/-- Parse the members of a JSON object (at least one expected). -/
def parseFields : Nat → List Char → Option (List (String × Json) × List Char)
  | 0, _ => none
  | fuel + 1, s =>
    match skipWs s with
    | '"' :: r => do
        let (key, r1) ← parseStringBody r
        match skipWs r1 with
        | ':' :: r2 => do
            let (v, r3) ← parseVal fuel r2
            match skipWs r3 with
            | ',' :: r4 =>
                (parseFields fuel r4).map (fun p => ((key, v) :: p.1, p.2))
            | '}' :: r4 => some ([(key, v)], r4)
            | _ => none
        | _ => none
    | _ => none

/-- Parse the elements of a JSON array (at least one expected). -/
def parseElems : Nat → List Char → Option (List Json × List Char)
  | 0, _ => none
  | fuel + 1, s => do
    let (v, r) ← parseVal fuel s
    match skipWs r with
    | ',' :: r1 => (parseElems fuel r1).map (fun p => (v :: p.1, p.2))
    | ']' :: r1 => some ([v], r1)
    | _ => none

end

/-- Model of `json.loads(candidate)` on the subset above: parse one value
and require the rest of the input to be whitespace. -/
def jsonLoads (s : String) : Option Json :=
  match parseVal (s.length + 1) s.data with
  | some (j, rest) => if skipWs rest = [] then some j else none
  | none => none

/-- `dict.get(key)` on a dict built by `json.loads`: Python keeps the last
binding of a duplicated key. -/
def jGet (fields : List (String × Json)) (key : String) : Option Json :=
  (fields.reverse.find? (fun kv => kv.1 = key)).map (fun kv => kv.2)

/-- Python truthiness of a parsed JSON value. -/
def pyTruthy : Json → Bool
  | .jNull => false
  | .jBool b => b
  | .jNum q => decide (q ≠ 0)
  | .jStr s => decide (s ≠ "")
  | .jArr elems => !elems.isEmpty
  | .jObj fields => !fields.isEmpty

/-- Python `x or y` over possibly-missing JSON values (`none` = `None`). -/
def pyOrJ (a b : Option Json) : Option Json :=
  match a with
  | some v => if pyTruthy v then some v else b
  | none => b

/-- Strip then lowercase a char list (ASCII, as these keyword comparisons
use). -/
def stripL (s : List Char) : List Char :=
  ((s.dropWhile Char.isWhitespace).reverse.dropWhile Char.isWhitespace).reverse

/-- `.lower()`. -/
def lowerL (s : List Char) : List Char := s.map Char.toLower

/-- `AccessoriesValidator._to_bool(value)`: strings are compared (stripped,
lowercased) against `{"true", "yes", "y", "1"}`; anything else goes through
`bool(value)`; a missing value (`None`) is falsy. -/
def toBoolPy : Option Json → Bool
  | some (.jStr s) => decide (String.mk (lowerL (stripL s.data)) ∈ ["true", "yes", "y", "1"])
  | some v => pyTruthy v
  | none => false

/-- Python `str(value)` of a parsed JSON scalar; container rendering is
abstracted to a constant (no claim inspects the rendered `items`). -/
def jsonStr : Json → String
  | .jNull => "None"
  | .jBool true => "True"
  | .jBool false => "False"
  | .jNum q => toString q
  | .jStr s => s
  | .jArr _ => "<list>"
  | .jObj _ => "<dict>"

/-- `text.find("{")`: index of the first occurrence, if any. -/
def firstIdxOf (s : List Char) (c : Char) : Option Nat :=
  s.findIdx? (fun d => d = c)

/-- `text.rfind("}")`: index of the last occurrence, if any. -/
def lastIdxOf (s : List Char) (c : Char) : Option Nat :=
  (s.reverse.findIdx? (fun d => d = c)).map (fun i => s.length - 1 - i)

/-- `text[text.find("{") : text.rfind("}") + 1]` when both characters occur
(`none` otherwise, modelling the `"{" in text and "}" in text` guard). -/
def jsonCandidate (text : List Char) : Option (List Char) :=
  match firstIdxOf text '{', lastIdxOf text '}' with
  | some i, some j => some ((text.drop i).take (j + 1 - i))
  | _, _ => none

/-- Does `pat` occur as a contiguous substring (Python `pat in s`)? -/
def isSubOf (pat : List Char) : List Char → Bool
  | [] => pat.isEmpty
  | c :: t => pat.isPrefixOf (c :: t) || isSubOf pat t

/-- The fixed accessory keyword list of the fallback parser. -/
def accessoryKeywords : List String :=
  ["glasses", "sunglass", "goggles", "hat", "cap", "hood", "headphone",
   "earbud", "earring", "mask", "scarf", "veil", "jewelry", "necklace"]

/-- The fixed filter/editing keyword list of the fallback parser. -/
def filterKeywords : List String :=
  ["filter", "beautified", "airbrush", "edited", "retouch"]

/-- The dict `_parse_response` returns (before the `vlm_enabled` etc.
bookkeeping keys `_detect_with_vlm` merges in, which carry no detection
content). -/
structure ParsedResp where
  accessoriesDetected : Bool
  filtersDetected : Bool
  items : List String
  reasoning : Option Json

/-- The JSON branch of `_parse_response`: field extraction from the parsed
object (`data`), with the `or`-chained key fallbacks and `_to_bool`
coercion. -/
def parseFromObj (fields : List (String × Json)) (text : List Char) : ParsedResp :=
  { accessoriesDetected :=
      toBoolPy (pyOrJ (jGet fields "accessories_detected")
        (pyOrJ (jGet fields "accessories") (jGet fields "has_accessories")))
    filtersDetected :=
      toBoolPy (pyOrJ (jGet fields "filters_detected")
        (pyOrJ (jGet fields "filters") (jGet fields "beautification")))
    items :=
      match pyOrJ (jGet fields "items") (jGet fields "accessories_list") with
      | some (.jArr xs) => xs.map jsonStr
      | _ => []
    reasoning :=
      some (match jGet fields "reasoning" with
        | some v => if pyTruthy v then v else .jStr (String.mk text)
        | none => .jStr (String.mk text)) }

/-- The keyword-fallback branch of `_parse_response`. -/
def fallbackParse (text : List Char) : ParsedResp :=
  let lowered := lowerL text
  { accessoriesDetected := accessoryKeywords.any (fun kw => isSubOf kw.data lowered)
    filtersDetected := filterKeywords.any (fun kw => isSubOf kw.data lowered)
    items := (accessoryKeywords.filter (fun kw => isSubOf kw.data lowered)).map id
    reasoning := some (.jStr (String.mk text)) }

/-- `AccessoriesValidator._parse_response(response)`: empty response short
circuit; strip; brace-slice candidate; `json.loads` on a non-empty
candidate with the JSON branch on a parsed object (a parse failure or a
non-dict result raises inside the `try` and lands in the fallback); keyword
fallback otherwise. -/
def parseResponse (response : List Char) : ParsedResp :=
  if response.isEmpty then
    ⟨false, false, [], some (.jStr "Empty response from MiniCPM-o")⟩
  else
    let text := stripL response
    match jsonCandidate text with
    | some c =>
        if c.isEmpty then fallbackParse text
        else
          match jsonLoads (String.mk c) with
          | some (.jObj fields) => parseFromObj fields text
          | _ => fallbackParse text
    | none => fallbackParse text

/-- The message `validate` passes to `add_error`:
`detection.get("reasoning") or <default>`. -/
def reasonMsg (p : ParsedResp) (dflt : String) : String :=
  match p.reasoning with
  | some v => if pyTruthy v then jsonStr v else dflt
  | none => dflt

/-- The error-adding step of `AccessoriesValidator.validate` once
`_detect_with_vlm` has produced a parsed detection: an accessories error
when `accessories_detected` is truthy, then a filters error when
`filters_detected` is truthy. -/
def accessoriesAddErrors (p : ParsedResp) (result : ValidationResult) : ValidationResult :=
  let result :=
    if p.accessoriesDetected then
      result.addError .ACCESSORIES_DETECTED
        (some (reasonMsg p "Accessories detected by MiniCPM-o"))
    else result
  let result :=
    if p.filtersDetected then
      result.addError .FILTERS_DETECTED
        (some (reasonMsg p "Filters or digital edits detected by MiniCPM-o"))
    else result
  result

/-! ## Auxiliary definitions used by the claim statements -/

/-- A sequence of `add_error(code, message)` calls applied to a result. -/
def applyAddErrors (ops : List (ErrorCode × Option String)) (r : ValidationResult) :
    ValidationResult :=
  ops.foldl (fun acc op => acc.addError op.1 op.2) r

/-- The value of the `image_format` variable after `_check_format`: the
sniffed format on a normal return, `None` when sniffing raised. -/
def sniffedFormat : Except String (Option String) → Option String
  | .error _ => none
  | .ok fmt => fmt

/-- Does `_parse_response` take the keyword-fallback branch on this
response?  True when the response is non-empty and the brace-slice
candidate is absent, empty, or does not `json.loads` to an object. -/
def fallbackReached (response : List Char) : Bool :=
  !response.isEmpty &&
    (match jsonCandidate (stripL response) with
     | some c =>
         c.isEmpty ||
           (match jsonLoads (String.mk c) with
            | some (.jObj _) => false
            | _ => true)
     | none => true)

/-- The exact JSON response of the claim (braces written as `\x7b`/`\x7d`
escapes): `'{"accessories_detected": true, "filters_detected": false}'`. -/
def vlmJsonResp : String :=
  "\x7b\"accessories_detected\": true, \"filters_detected\": false\x7d"

/-- A non-JSON response containing the word "sunglasses" whose brace slice
nevertheless parses as JSON: `'sunglasses {}'`. -/
def cexResp : String := "sunglasses \x7b\x7d"

/-- A 32 × 24 grayscale image: two 8-aligned horizontal boundary rows
(`y = 8, 16`) but a single vertical boundary column (`x = 8`), with all
pixel variation concentrated at that vertical boundary. -/
def blockinessCex : GrayImage :=
  ⟨32, 24, fun _ x => if 8 ≤ x then 1 else 0⟩

/-- A 17 × 17 flat image: one 8-aligned boundary along each axis. -/
def flatImage17 : GrayImage := ⟨17, 17, fun _ _ => 0⟩

/-- The format-stage behavior induced by a decoded image of the given
dimensions with the given collaborator outcomes (what the orchestrator's
`validator.validate(image, context)` call does for the format stage when
`image_bytes` is in the context). -/
def formatBehavior (width height : Nat) (sniff : Except String (Option String))
    (decoded : Option GrayImage) : Behavior :=
  fun _ => .ok (formatValidate width height true sniff decoded)

/-- A stage behavior that always returns a clean passing result. -/
def passBehavior : Behavior := fun _ => .ok createResult

/-- A stage behavior that always returns a failed result with one error. -/
def failBehavior : Behavior := fun _ => .ok (createResult.addError .WRONG_ASPECT none)

/-- A stage behavior that always raises. -/
def raiseBehavior : Behavior := fun _ => .error "boom"

/-! ## Basic lemmas about the result model -/

@[simp]
theorem mkValidationError_code (c : ErrorCode) (m : Option String) :
    (mkValidationError c m).code = c := rfl

@[simp]
theorem addError_passed (r : ValidationResult) (c : ErrorCode) (m : Option String) :
    (r.addError c m).passed = false := rfl

@[simp]
theorem addError_errors (r : ValidationResult) (c : ErrorCode) (m : Option String) :
    (r.addError c m).errors = r.errors ++ [mkValidationError c m] := rfl

@[simp]
theorem addError_metadata (r : ValidationResult) (c : ErrorCode) (m : Option String) :
    (r.addError c m).metadata = r.metadata := rfl

@[simp]
theorem addError_codes (r : ValidationResult) (c : ErrorCode) (m : Option String) :
    (r.addError c m).codes = r.codes ++ [c] := by
  simp [ValidationResult.codes, ValidationResult.addError]

theorem applyAddErrors_invariant (ops : List (ErrorCode × Option String))
    (r : ValidationResult) (h : r.passed = false ↔ r.errors ≠ []) :
    ((applyAddErrors ops r).passed = false ↔ (applyAddErrors ops r).errors ≠ []) := by
  induction ops generalizing r with
  | nil => exact h
  | cons op ops ih =>
      refine ih (r.addError op.1 op.2) ?_
      simp [ValidationResult.addError]

/-! ## C4: the `ValidationResult` invariant and `add_error` -/

/-- C4 counterexample: the `ValidationResult` constructor is itself one of
the claim's admitted operations, and `ValidationResult(passed=False)`
produces `passed == False` with an empty error list, so "after any sequence
of operations (construction and add_error calls), `passed == False` iff
`errors` is non-empty" fails at that construction. -/
theorem validationResult_constructor_breaks_invariant :
    (mkValidationResult false none none).passed = false ∧
    (mkValidationResult false none none).errors = [] ∧
    ¬((mkValidationResult false none none).passed = false ↔
      (mkValidationResult false none none).errors ≠ []) := by
  refine ⟨rfl, rfl, ?_⟩
  intro h
  exact (h.mp rfl) rfl

/-- C4 (amended): for every `ValidationResult` built by the default
construction the stages use (`passed=True`, no errors) and mutated by any
sequence of `add_error` calls, `passed == False` iff the error list is
non-empty; and `add_error` appends exactly one `ValidationError`, flips
`passed` to false, leaves all prior errors in place and in order, leaves
the metadata untouched, and (being a total function) never throws. -/
theorem validationResult_invariant :
    (∀ ops : List (ErrorCode × Option String),
      ((applyAddErrors ops createResult).passed = false ↔
        (applyAddErrors ops createResult).errors ≠ [])) ∧
    (∀ (r : ValidationResult) (c : ErrorCode) (m : Option String),
      (r.addError c m).errors = r.errors ++ [mkValidationError c m] ∧
      (r.addError c m).passed = false ∧
      (r.addError c m).metadata = r.metadata) := by
  constructor
  · intro ops
    refine applyAddErrors_invariant ops createResult ?_
    simp [createResult, mkValidationResult]
  · intro r c m
    exact ⟨rfl, rfl, rfl⟩

/-! ## C6: pose-angle thresholds -/

/-- C6: angles `(0, 0, 0)` add no pose error; when exactly one of
`|yaw|`, `|pitch|`, `|roll|` exceeds its configured maximum and the other
two are within theirs, `_check_pose_angles` adds exactly one error — a
`FACE_NOT_STRAIGHT` error for a yaw or pitch violation and a `HEAD_TILTED`
error for a roll violation. -/
theorem poseAngles_thresholds :
    (∀ r : ValidationResult, checkPoseAngles 0 0 0 r = r) ∧
    (∀ (r : ValidationResult) (y p ro : ℚ),
      |y| > Config.MAX_YAW → |p| ≤ Config.MAX_PITCH → |ro| ≤ Config.MAX_ROLL →
      (checkPoseAngles y p ro r).codes = r.codes ++ [ErrorCode.FACE_NOT_STRAIGHT]) ∧
    (∀ (r : ValidationResult) (y p ro : ℚ),
      |y| ≤ Config.MAX_YAW → |p| > Config.MAX_PITCH → |ro| ≤ Config.MAX_ROLL →
      (checkPoseAngles y p ro r).codes = r.codes ++ [ErrorCode.FACE_NOT_STRAIGHT]) ∧
    (∀ (r : ValidationResult) (y p ro : ℚ),
      |y| ≤ Config.MAX_YAW → |p| ≤ Config.MAX_PITCH → |ro| > Config.MAX_ROLL →
      (checkPoseAngles y p ro r).codes = r.codes ++ [ErrorCode.HEAD_TILTED]) := by
  refine ⟨?_, ?_, ?_, ?_⟩
  · intro r
    norm_num [checkPoseAngles, Config.MAX_YAW, Config.MAX_PITCH, Config.MAX_ROLL]
  · intro r y p ro hy hp hr
    simp [checkPoseAngles, hy, not_lt.mpr hp, not_lt.mpr hr]
  · intro r y p ro hy hp hr
    simp [checkPoseAngles, hp, not_lt.mpr hy, not_lt.mpr hr]
  · intro r y p ro hy hp hr
    simp [checkPoseAngles, hr, not_lt.mpr hy, not_lt.mpr hp]

/-- Witness for C6 at `(16, 0, 0)`, `(0, 11, 0)` and `(0, 0, 21)`. -/
theorem poseAngles_thresholds_witness :
    |(16 : ℚ)| > Config.MAX_YAW ∧
    (checkPoseAngles 16 0 0 createResult).codes =
      createResult.codes ++ [ErrorCode.FACE_NOT_STRAIGHT] ∧
    (checkPoseAngles 0 11 0 createResult).codes =
      createResult.codes ++ [ErrorCode.FACE_NOT_STRAIGHT] ∧
    (checkPoseAngles 0 0 21 createResult).codes =
      createResult.codes ++ [ErrorCode.HEAD_TILTED] :=
  ⟨by decide,
   poseAngles_thresholds.2.1 createResult 16 0 0 (by decide) (by decide) (by decide),
   poseAngles_thresholds.2.2.1 createResult 0 11 0 (by decide) (by decide) (by decide),
   poseAngles_thresholds.2.2.2 createResult 0 0 21 (by decide) (by decide) (by decide)⟩

/-! ## C8: exposure and contrast checks -/

/-- C8: on a non-empty grayscale image, `_check_exposure_contrast` adds the
underexposure error exactly when more than half of the pixels fall below the
low-brightness cutoff or the mean brightness is below 60, the overexposure
error exactly when more than half of the pixels exceed the high-brightness
cutoff or the mean brightness is above 200, and the low-contrast error
exactly when the standard deviation of luminance is below the configured
floor (phrased through the variance); the checks are independent and all
applicable errors are appended in this one call, in that order. -/
theorem quality_exposure_contrast :
    ∀ (img : GrayImage) (r : ValidationResult), 0 < img.size →
      (checkExposureContrast img r).2.codes = r.codes ++
        ((if lowPixelFrac img > 1 / 2 ∨ img.mean < 60 then
            [ErrorCode.INSUFFICIENT_LIGHTING] else []) ++
         ((if highPixelFrac img > 1 / 2 ∨ img.mean > 200 then
            [ErrorCode.OVEREXPOSED] else []) ++
          (if img.variance < Config.MIN_CONTRAST ^ 2 then
            [ErrorCode.LOW_CONTRAST] else []))) ∧
      (checkExposureContrast img r).1 = (img.mean, img.variance) := by
  intro img r _
  constructor
  · simp only [checkExposureContrast]
    split_ifs <;> simp
  · rfl

/-- Witness for C8 at a 2 × 2 image of constant brightness 30. -/
theorem quality_exposure_contrast_witness :
    0 < (GrayImage.mk 2 2 (fun _ _ => 30)).size ∧
    ((checkExposureContrast (GrayImage.mk 2 2 (fun _ _ => 30)) createResult).2.codes =
      createResult.codes ++
        ((if lowPixelFrac (GrayImage.mk 2 2 (fun _ _ => 30)) > 1 / 2 ∨
            (GrayImage.mk 2 2 (fun _ _ => 30)).mean < 60 then
            [ErrorCode.INSUFFICIENT_LIGHTING] else []) ++
         ((if highPixelFrac (GrayImage.mk 2 2 (fun _ _ => 30)) > 1 / 2 ∨
            (GrayImage.mk 2 2 (fun _ _ => 30)).mean > 200 then
            [ErrorCode.OVEREXPOSED] else []) ++
          (if (GrayImage.mk 2 2 (fun _ _ => 30)).variance < Config.MIN_CONTRAST ^ 2 then
            [ErrorCode.LOW_CONTRAST] else []))) ∧
      (checkExposureContrast (GrayImage.mk 2 2 (fun _ _ => 30)) createResult).1 =
        ((GrayImage.mk 2 2 (fun _ _ => 30)).mean,
          (GrayImage.mk 2 2 (fun _ _ => 30)).variance)) :=
  ⟨by decide,
   quality_exposure_contrast (GrayImage.mk 2 2 (fun _ _ => 30)) createResult (by decide)⟩

/-! ## C9: face centering -/

/-- C9: a face box whose center coincides exactly with the image center
yields center offsets `(0, 0)` and no centering error; a face box whose
fractional x-offset exceeds `FACE_CENTER_TOLERANCE` while the y-offset is
within tolerance adds exactly one `FACE_NOT_CENTERED` error (not one per
axis). -/
theorem geometry_centering :
    (∀ (r : ValidationResult) (W H : Nat) (bbox : BBox), 0 < W → 0 < H →
      bbox.x + bbox.w / 2 = (W : ℚ) / 2 → bbox.y + bbox.h / 2 = (H : ℚ) / 2 →
      (checkFaceCentering bbox W H r).1 = (0, 0) ∧
      (checkFaceCentering bbox W H r).2 = r) ∧
    (∀ (r : ValidationResult) (W H : Nat) (bbox : BBox),
      (checkFaceCentering bbox W H r).1.1 > Config.FACE_CENTER_TOLERANCE →
      (checkFaceCentering bbox W H r).1.2 ≤ Config.FACE_CENTER_TOLERANCE →
      (checkFaceCentering bbox W H r).2.codes =
        r.codes ++ [ErrorCode.FACE_NOT_CENTERED]) := by
  constructor
  · intro r W H bbox _ _ hx hy
    have hx0 : |bbox.x + bbox.w / 2 - (W : ℚ) / 2| / (W : ℚ) = 0 := by
      rw [hx]; simp
    have hy0 : |bbox.y + bbox.h / 2 - (H : ℚ) / 2| / (H : ℚ) = 0 := by
      rw [hy]; simp
    constructor
    · simp [checkFaceCentering, hx0, hy0]
    · have : ¬((0 : ℚ) > Config.FACE_CENTER_TOLERANCE ∨
          (0 : ℚ) > Config.FACE_CENTER_TOLERANCE) := by
        norm_num [Config.FACE_CENTER_TOLERANCE]
      simp [checkFaceCentering, hx0, hy0, Config.FACE_CENTER_TOLERANCE]
      norm_num
  · intro r W H bbox hx hy
    simp only [checkFaceCentering] at hx ⊢
    rw [if_pos (Or.inl hx)]
    simp

/-- The concrete centered-box hypotheses for the C9 witness. -/
theorem centeringHypX : (0 : ℚ) + 400 / 2 = ((400 : Nat) : ℚ) / 2 := by norm_num

/-- The concrete off-center hypotheses for the C9 witness: a
`(300, 100, 200, 200)` box in a 400 × 400 image has x-offset `1/2` and
y-offset `0`. -/
theorem centeringHypOffX :
    (checkFaceCentering ⟨300, 100, 200, 200⟩ 400 400 createResult).1.1 >
      Config.FACE_CENTER_TOLERANCE := by
  norm_num [checkFaceCentering, Config.FACE_CENTER_TOLERANCE]

theorem centeringHypOffY :
    (checkFaceCentering ⟨300, 100, 200, 200⟩ 400 400 createResult).1.2 ≤
      Config.FACE_CENTER_TOLERANCE := by
  norm_num [checkFaceCentering, Config.FACE_CENTER_TOLERANCE]

/-- Witness for C9: an exactly centered  400 × 400 box in a 400 × 400 image,
and a box shifted beyond tolerance in x only. -/
theorem geometry_centering_witness :
    ((checkFaceCentering ⟨0, 0, 400, 400⟩ 400 400 createResult).1 = (0, 0) ∧
      (checkFaceCentering ⟨0, 0, 400, 400⟩ 400 400 createResult).2 = createResult) ∧
    (checkFaceCentering ⟨300, 100, 200, 200⟩ 400 400 createResult).2.codes =
      createResult.codes ++ [ErrorCode.FACE_NOT_CENTERED] :=
  ⟨geometry_centering.1 createResult 400 400 ⟨0, 0, 400, 400⟩ (by decide) (by decide)
      centeringHypX centeringHypX,
   geometry_centering.2 createResult 400 400 ⟨300, 100, 200, 200⟩
      centeringHypOffX centeringHypOffY⟩

/-! ## Pipeline lemmas -/

theorem statusFlag_iff (errs : List (String × String)) :
    ((if errs.length = 0 then "success" else "fail") : String) = "success" ↔ errs = [] := by
  cases errs <;> simp

theorem runStages_errors_meta_indep (stages : List (String × Behavior)) :
    ∀ (errs : List (String × String)) (m₁ m₂ : Dict Metadata) (ctx : Metadata),
      (runStages stages ⟨errs, m₁, ctx⟩).errors = (runStages stages ⟨errs, m₂, ctx⟩).errors := by
  induction stages with
  | nil => intro errs m₁ m₂ ctx; rfl
  | cons s rest ih =>
      intro errs m₁ m₂ ctx
      obtain ⟨name, b⟩ := s
      simp only [runStages]
      cases hb : b ctx with
      | ok result =>
          by_cases hbreak : (name = "format" ∧ result.passed = false) ∨
              (name = "face" ∧ result.passed = false)
          · simp [hbreak]
          · simp only [if_neg hbreak]
            exact ih _ _ _ _
      | error e => exact ih _ _ _ _

theorem dictGet_map_replace_ne {α : Type} (d : Dict α) (k' k : String) (v : α)
    (h : k' ≠ k) :
    dictGet (d.map (fun kv => if kv.1 = k' then (k', v) else kv)) k = dictGet d k := by
  induction d with
  | nil => rfl
  | cons hd tl ih =>
      by_cases hk : hd.1 = k'
      · have hne : hd.1 ≠ k := by rw [hk]; exact h
        simpa [dictGet, List.find?, hk, hne, h] using ih
      · by_cases hk2 : hd.1 = k
        · simp [dictGet, List.find?, hk, hk2, Ne.symm h]
        · simpa [dictGet, List.find?, hk, hk2, Ne.symm h] using ih

theorem dictGet_dictSet_ne {α : Type} (d : Dict α) (k' k : String) (v : α)
    (h : k' ≠ k) : dictGet (dictSet d k' v) k = dictGet d k := by
  unfold dictSet
  by_cases hmem : d.any (fun kv => kv.1 = k')
  · simp only [hmem, if_true]
    exact dictGet_map_replace_ne d k' k v h
  · rw [if_neg hmem]
    unfold dictGet
    rw [List.find?_append]
    have hnone : List.find? (fun kv => decide (kv.1 = k)) [(k', v)] = none := by
      simp [List.find?, h]
    simp [hnone]

theorem runStages_meta_preserved (stages : List (String × Behavior)) :
    ∀ (acc : PipeAcc) (k : String), (∀ s ∈ stages, s.1 ≠ k) →
      dictGet (runStages stages acc).meta k = dictGet acc.meta k := by
  induction stages with
  | nil => intro acc k _; rfl
  | cons s rest ih =>
      intro acc k hk
      obtain ⟨name, b⟩ := s
      have hname : name ≠ k := hk (name, b) (List.mem_cons_self _ _)
      have hrest : ∀ s ∈ rest, s.1 ≠ k := fun s hs => hk s (List.mem_cons_of_mem _ hs)
      simp only [runStages]
      cases hb : b acc.ctx with
      | ok result =>
          by_cases hbreak : (name = "format" ∧ result.passed = false) ∨
              (name = "face" ∧ result.passed = false)
          · simp only [if_pos hbreak]
            exact dictGet_dictSet_ne _ _ _ _ hname
          · simp only [if_neg hbreak]
            rw [ih _ k hrest]
            exact dictGet_dictSet_ne _ _ _ _ hname
      | error e =>
          rw [ih _ k hrest]
          exact dictGet_dictSet_ne _ _ _ _ hname

theorem runStages_ok_break (name : String) (b : Behavior)
    (rest : List (String × Behavior)) (acc : PipeAcc) (result : ValidationResult)
    (hb : b acc.ctx = .ok result)
    (hbr : (name = "format" ∧ result.passed = false) ∨
      (name = "face" ∧ result.passed = false)) :
    runStages ((name, b) :: rest) acc =
      ⟨acc.errors ++
          (if result.passed then [] else result.errors.map ValidationError.toDict),
        dictSet acc.meta name result.metadata,
        dictUpdate acc.ctx result.metadata⟩ := by
  simp only [runStages, hb]
  rw [if_pos hbr]

theorem runStages_ok_continue (name : String) (b : Behavior)
    (rest : List (String × Behavior)) (acc : PipeAcc) (result : ValidationResult)
    (hb : b acc.ctx = .ok result)
    (hbr : ¬((name = "format" ∧ result.passed = false) ∨
      (name = "face" ∧ result.passed = false))) :
    runStages ((name, b) :: rest) acc =
      runStages rest
        ⟨acc.errors ++
            (if result.passed then [] else result.errors.map ValidationError.toDict),
          dictSet acc.meta name result.metadata,
          dictUpdate acc.ctx result.metadata⟩ := by
  simp only [runStages, hb]
  rw [if_neg hbr]

theorem runStages_error_step (name : String) (b : Behavior)
    (rest : List (String × Behavior)) (acc : PipeAcc) (e : String)
    (hb : b acc.ctx = .error e) :
    runStages ((name, b) :: rest) acc =
      runStages rest
        { acc with meta := dictSet acc.meta name (validatorFailedMarker e) } := by
  simp only [runStages, hb]

theorem dictSet_fresh {α : Type} (d : Dict α) (k : String) (v : α)
    (h : d.any (fun kv => kv.1 = k) = false) : dictSet d k v = d ++ [(k, v)] := by
  simp [dictSet, h]

theorem runStages_keys (stages : List (String × Behavior)) :
    ∀ acc : PipeAcc, noHardStop stages acc.ctx →
      (∀ s ∈ stages, acc.meta.any (fun kv => kv.1 = s.1) = false) →
      (stages.map Prod.fst).Nodup →
      (runStages stages acc).meta.map Prod.fst =
        acc.meta.map Prod.fst ++ stages.map Prod.fst := by
  induction stages with
  | nil => intro acc _ _ _; simp [runStages]
  | cons s rest ih =>
      intro acc hns hfresh hnodup
      obtain ⟨name, b⟩ := s
      have hfreshName : acc.meta.any (fun kv => kv.1 = name) = false :=
        hfresh (name, b) (List.mem_cons_self _ _)
      have hnodup' := List.nodup_cons.mp
        (show (name :: rest.map Prod.fst).Nodup from hnodup)
      have hnotin : name ∉ rest.map Prod.fst := hnodup'.1
      have hnodupRest : (rest.map Prod.fst).Nodup := hnodup'.2
      cases hb : b acc.ctx with
      | ok result =>
          have hns' : ((name = "format" ∨ name = "face") → result.passed = true) ∧
              noHardStop rest (dictUpdate acc.ctx result.metadata) := by
            have := hns
            simp only [noHardStop, hb] at this
            exact this
          have hnb : ¬((name = "format" ∧ result.passed = false) ∨
              (name = "face" ∧ result.passed = false)) := by
            rintro (⟨hn, hp⟩ | ⟨hn, hp⟩)
            · rw [hns'.1 (Or.inl hn)] at hp; exact Bool.noConfusion hp
            · rw [hns'.1 (Or.inr hn)] at hp; exact Bool.noConfusion hp
          rw [runStages_ok_continue name b rest acc result hb hnb]
          rw [dictSet_fresh acc.meta name result.metadata hfreshName]
          have hfresh' : ∀ s ∈ rest,
              (acc.meta ++ [(name, result.metadata)]).any (fun kv => kv.1 = s.1) = false := by
            intro s hs
            rw [List.any_append]
            have h1 : acc.meta.any (fun kv => kv.1 = s.1) = false :=
              hfresh s (List.mem_cons_of_mem _ hs)
            have h2 : name ≠ s.1 := by
              intro hcontra
              exact hnotin (hcontra ▸ List.mem_map_of_mem Prod.fst hs)
            simp [h1, h2]
          have := ih ⟨acc.errors ++
              (if result.passed then [] else result.errors.map ValidationError.toDict),
            acc.meta ++ [(name, result.metadata)],
            dictUpdate acc.ctx result.metadata⟩ hns'.2 hfresh' hnodupRest
          rw [this]
          simp
      | error e =>
          have hns' : noHardStop rest acc.ctx := by
            have := hns
            simp only [noHardStop, hb] at this
            exact this
          rw [runStages_error_step name b rest acc e hb]
          rw [dictSet_fresh acc.meta name (validatorFailedMarker e) hfreshName]
          have hfresh' : ∀ s ∈ rest,
              (acc.meta ++ [(name, validatorFailedMarker e)]).any
                (fun kv => kv.1 = s.1) = false := by
            intro s hs
            rw [List.any_append]
            have h1 : acc.meta.any (fun kv => kv.1 = s.1) = false :=
              hfresh s (List.mem_cons_of_mem _ hs)
            have h2 : name ≠ s.1 := by
              intro hcontra
              exact hnotin (hcontra ▸ List.mem_map_of_mem Prod.fst hs)
            simp [h1, h2]
          have := ih { acc with meta := acc.meta ++ [(name, validatorFailedMarker e)] }
            hns' hfresh' hnodupRest
          rw [this]
          simp

/-! ## C1: overall status iff empty error list -/

/-- C1: in both full and stream mode (including the decode-failure branch),
the returned `status` equals `"success"` exactly when the accumulated error
list of the response is empty. -/
theorem status_success_iff_no_errors :
    ∀ (decodeOutcome : Except String String) (stages : List (String × Behavior)),
      ((pipelineValidate decodeOutcome stages).status = "success" ↔
        (pipelineValidate decodeOutcome stages).errors = []) ∧
      ((streamValidate decodeOutcome stages).status = "success" ↔
        (streamValidate decodeOutcome stages).errors = []) := by
  intro d stages
  cases d with
  | error e =>
      constructor <;> simp [pipelineValidate, streamValidate]
  | ok bytes =>
      constructor
      · simp only [pipelineValidate]
        exact statusFlag_iff (runStages stages ⟨[], [], seedCtx bytes⟩).errors
      · simp only [streamValidate]
        exact statusFlag_iff (runStreamStages
          (stages.filter (fun s => ¬(s.1 = "background" ∨ s.1 = "accessories")))
          ⟨[], none, StreamGuidance.empty, seedCtx bytes⟩).errors

/-! ## C3: exceptions inside a stage are caught -/

/-- C3: when a stage raises, the orchestrator catches the exception (the
run simply continues with the remaining stages — nothing propagates),
stores `{error: str(e), validator_failed: True}` as that stage's entry in
the response metadata, leaves the error accumulator and the shared context
untouched, and the faulting stage contributes nothing to the cumulative
error list (the final errors equal those of the same run without the
faulting stage). -/
theorem stage_exception_caught :
    ∀ (name : String) (b : Behavior) (rest : List (String × Behavior))
      (acc : PipeAcc) (e : String), b acc.ctx = .error e →
      runStages ((name, b) :: rest) acc =
        runStages rest
          { acc with meta := dictSet acc.meta name (validatorFailedMarker e) } ∧
      (runStages ((name, b) :: rest) acc).errors = (runStages rest acc).errors := by
  intro name b rest acc e hb
  have hstep : runStages ((name, b) :: rest) acc =
      runStages rest
        { acc with meta := dictSet acc.meta name (validatorFailedMarker e) } := by
    simp only [runStages, hb]
  refine ⟨hstep, ?_⟩
  rw [hstep]
  obtain ⟨errs, m, ctx⟩ := acc
  exact runStages_errors_meta_indep rest errs _ m ctx

/-- Witness for C3: a raising `pose` stage followed by one more stage. -/
theorem stage_exception_caught_witness :
    raiseBehavior ((⟨[], [], []⟩ : PipeAcc).ctx) = .error "boom" ∧
    runStages [("pose", raiseBehavior), ("geometry", passBehavior)] ⟨[], [], []⟩ =
      runStages [("geometry", passBehavior)]
        ⟨[], dictSet [] "pose" (validatorFailedMarker "boom"), []⟩ ∧
    (runStages [("pose", raiseBehavior), ("geometry", passBehavior)] ⟨[], [], []⟩).errors =
      (runStages [("geometry", passBehavior)] ⟨[], [], []⟩).errors :=
  ⟨rfl,
   (stage_exception_caught "pose" raiseBehavior [("geometry", passBehavior)]
      ⟨[], [], []⟩ "boom" rfl).1,
   (stage_exception_caught "pose" raiseBehavior [("geometry", passBehavior)]
      ⟨[], [], []⟩ "boom" rfl).2⟩

/-! ## C10: the format metadata entry survives the hard stop -/

/-- C10: when the image decodes (hence has positive dimensions), the full
response metadata always contains the `"format"` entry — the format stage's
metadata with exactly the keys `width`, `height`, `aspect_ratio`,
`min_dimension`, `max_dimension` — whatever the sniffing/decoding outcomes
and the later stages do, because each stage's metadata is stored before the
hard-stop condition is evaluated. -/
theorem format_metadata_always_present :
    ∀ (width height : Nat), 0 < width → 0 < height →
    ∀ (sniff : Except String (Option String)) (decoded : Option GrayImage)
      (bytes : String) (bq bfa bp bg bb : Behavior),
      dictGet (pipelineValidate (.ok bytes)
          (fullStages (formatBehavior width height sniff decoded) bq bfa bp bg bb)).metadata
          "format" =
        some (formatValidate width height true sniff decoded).metadata ∧
      (formatValidate width height true sniff decoded).metadata.map Prod.fst =
        ["width", "height", "aspect_ratio", "min_dimension", "max_dimension"] := by
  intro w h _ _ sniff decoded bytes bq bfa bp bg bb
  refine ⟨?_, rfl⟩
  generalize hfv : formatValidate w h true sniff decoded = fv
  simp only [pipelineValidate, fullStages]
  set acc0 : PipeAcc := ⟨[], [], seedCtx bytes⟩ with hacc0
  have hbf : formatBehavior w h sniff decoded acc0.ctx = .ok fv := by
    simp [formatBehavior, hfv]
  have hget : dictGet (dictSet acc0.meta "format" fv.metadata) "format" =
      some fv.metadata := by
    simp [hacc0, dictSet, dictGet, List.find?]
  by_cases hp : fv.passed = false
  · rw [runStages_ok_break "format" _ _ acc0 fv hbf (Or.inl ⟨rfl, hp⟩)]
    exact hget
  · rw [runStages_ok_continue "format" _ _ acc0 fv hbf (by simp [hp])]
    rw [runStages_meta_preserved _ _ "format" ?hrest]
    · exact hget
    · intro s hs
      simp only [List.mem_cons, List.not_mem_nil, or_false] at hs
      rcases hs with rfl | rfl | rfl | rfl | rfl <;> simp

/-- Witness for C10: a 600 × 800 JPEG-sniffed image with passing later
stages. -/
theorem format_metadata_always_present_witness :
    0 < 600 ∧ 0 < 800 ∧
    (dictGet (pipelineValidate (.ok "bytes")
        (fullStages (formatBehavior 600 800 (.ok (some "JPEG")) none)
          passBehavior passBehavior passBehavior passBehavior passBehavior)).metadata
        "format" =
      some (formatValidate 600 800 true (.ok (some "JPEG")) none).metadata ∧
    (formatValidate 600 800 true (.ok (some "JPEG")) none).metadata.map Prod.fst =
      ["width", "height", "aspect_ratio", "min_dimension", "max_dimension"]) :=
  ⟨by decide, by decide,
   format_metadata_always_present 600 800 (by decide) (by decide) (.ok (some "JPEG"))
     none "bytes" passBehavior passBehavior passBehavior passBehavior passBehavior⟩

/-! ## C2: the hard-stop policy -/

/-- C2: in full mode the pipeline skips all remaining stages exactly when
the format stage returns a failed result or the face stage returns a failed
result.  In particular: (a) when format fails, only the `format` metadata
entry appears — no `quality`/`pose`/`geometry`/`background` keys at all;
(b) when format does not return a failed result but face does, exactly
`format`, `quality`, `face` appear; (c) when neither format nor face
returns a failed result — other stages may fail or raise freely — every
stage of the full list appears. -/
theorem hard_stop_policy :
    ∀ (bytes : String) (bf bq bfa bp bg bb : Behavior),
      (∀ rf : ValidationResult,
        bf (seedCtx bytes) = .ok rf → rf.passed = false →
        (pipelineValidate (.ok bytes)
            (fullStages bf bq bfa bp bg bb)).metadata.map Prod.fst = ["format"] ∧
        dictGet (pipelineValidate (.ok bytes)
            (fullStages bf bq bfa bp bg bb)).metadata "quality" = none ∧
        dictGet (pipelineValidate (.ok bytes)
            (fullStages bf bq bfa bp bg bb)).metadata "pose" = none ∧
        dictGet (pipelineValidate (.ok bytes)
            (fullStages bf bq bfa bp bg bb)).metadata "geometry" = none ∧
        dictGet (pipelineValidate (.ok bytes)
            (fullStages bf bq bfa bp bg bb)).metadata "background" = none) ∧
      (∀ (of oq : StageOutcome) (rfa : ValidationResult),
        bf (seedCtx bytes) = of → isOkFailed of = false →
        bq (ctxAfter (seedCtx bytes) of) = oq →
        bfa (ctxAfter (ctxAfter (seedCtx bytes) of) oq) = .ok rfa →
        rfa.passed = false →
        (pipelineValidate (.ok bytes)
            (fullStages bf bq bfa bp bg bb)).metadata.map Prod.fst =
          ["format", "quality", "face"]) ∧
      (∀ (of oq ofa op og ob : StageOutcome),
        bf (seedCtx bytes) = of → isOkFailed of = false →
        bq (ctxAfter (seedCtx bytes) of) = oq →
        bfa (ctxAfter (ctxAfter (seedCtx bytes) of) oq) = ofa →
        isOkFailed ofa = false →
        bp (ctxAfter (ctxAfter (ctxAfter (seedCtx bytes) of) oq) ofa) = op →
        bg (ctxAfter (ctxAfter (ctxAfter (ctxAfter (seedCtx bytes) of) oq) ofa) op) = og →
        bb (ctxAfter (ctxAfter (ctxAfter (ctxAfter (ctxAfter (seedCtx bytes) of) oq) ofa)
            op) og) = ob →
        (pipelineValidate (.ok bytes)
            (fullStages bf bq bfa bp bg bb)).metadata.map Prod.fst =
          ["format", "quality", "face", "pose", "geometry", "background"]) := by
  intro bytes bf bq bfa bp bg bb
  refine ⟨?_, ?_, ?_⟩
  · intro rf hf hp
    simp only [pipelineValidate, fullStages]
    rw [runStages_ok_break "format" bf _ ⟨[], [], seedCtx bytes⟩ rf hf (Or.inl ⟨rfl, hp⟩)]
    refine ⟨?_, ?_, ?_, ?_, ?_⟩ <;> simp [dictSet, dictGet, List.find?]
  · intro of oq rfa hf hfp hq hface hfap
    simp only [pipelineValidate, fullStages]
    cases of with
    | ok rf =>
        have hfp' : rf.passed = true := by simpa [isOkFailed] using hfp
        cases oq with
        | ok rq =>
            simp only [ctxAfter] at hq hface
            rw [runStages_ok_continue "format" bf _ ⟨[], [], seedCtx bytes⟩ rf hf
              (by simp [hfp'])]
            rw [runStages_ok_continue "quality" bq _ _ rq hq (by simp)]
            rw [runStages_ok_break "face" bfa _ _ rfa hface (Or.inr ⟨rfl, hfap⟩)]
            simp [dictSet, dictGet, List.find?]
        | error e2 =>
            simp only [ctxAfter] at hq hface
            rw [runStages_ok_continue "format" bf _ ⟨[], [], seedCtx bytes⟩ rf hf
              (by simp [hfp'])]
            rw [runStages_error_step "quality" bq _ _ e2 hq]
            rw [runStages_ok_break "face" bfa _ _ rfa hface (Or.inr ⟨rfl, hfap⟩)]
            simp [dictSet, dictGet, List.find?]
    | error e1 =>
        cases oq with
        | ok rq =>
            simp only [ctxAfter] at hq hface
            rw [runStages_error_step "format" bf _ ⟨[], [], seedCtx bytes⟩ e1 hf]
            rw [runStages_ok_continue "quality" bq _ _ rq hq (by simp)]
            rw [runStages_ok_break "face" bfa _ _ rfa hface (Or.inr ⟨rfl, hfap⟩)]
            simp [dictSet, dictGet, List.find?]
        | error e2 =>
            simp only [ctxAfter] at hq hface
            rw [runStages_error_step "format" bf _ ⟨[], [], seedCtx bytes⟩ e1 hf]
            rw [runStages_error_step "quality" bq _ _ e2 hq]
            rw [runStages_ok_break "face" bfa _ _ rfa hface (Or.inr ⟨rfl, hfap⟩)]
            simp [dictSet, dictGet, List.find?]
  · intro of oq ofa op og ob hf hfp hq hface hfap hpo hg hb
    have hns : noHardStop (fullStages bf bq bfa bp bg bb) (seedCtx bytes) := by
      cases of <;> cases oq <;> cases ofa <;> cases op <;> cases og <;> cases ob <;>
        simp_all [noHardStop, fullStages, ctxAfter, isOkFailed]
    simp only [pipelineValidate, fullStages]
    rw [runStages_keys _ ⟨[], [], seedCtx bytes⟩ (by simpa [fullStages] using hns)
      (by intro s _; rfl) (by simp)]
    simp

/-- Witness for C2: a failing format stage, a failing face stage after a
raising quality stage, and a run with only soft failures. -/
theorem hard_stop_policy_witness :
    ((pipelineValidate (.ok "b")
        (fullStages failBehavior passBehavior passBehavior passBehavior passBehavior
          passBehavior)).metadata.map Prod.fst = ["format"] ∧
      dictGet (pipelineValidate (.ok "b")
          (fullStages failBehavior passBehavior passBehavior passBehavior passBehavior
            passBehavior)).metadata "quality" = none ∧
      dictGet (pipelineValidate (.ok "b")
          (fullStages failBehavior passBehavior passBehavior passBehavior passBehavior
            passBehavior)).metadata "pose" = none ∧
      dictGet (pipelineValidate (.ok "b")
          (fullStages failBehavior passBehavior passBehavior passBehavior passBehavior
            passBehavior)).metadata "geometry" = none ∧
      dictGet (pipelineValidate (.ok "b")
          (fullStages failBehavior passBehavior passBehavior passBehavior passBehavior
            passBehavior)).metadata "background" = none) ∧
    ((pipelineValidate (.ok "b")
        (fullStages passBehavior raiseBehavior failBehavior passBehavior passBehavior
          passBehavior)).metadata.map Prod.fst = ["format", "quality", "face"]) ∧
    ((pipelineValidate (.ok "b")
        (fullStages passBehavior failBehavior passBehavior raiseBehavior failBehavior
          passBehavior)).metadata.map Prod.fst =
      ["format", "quality", "face", "pose", "geometry", "background"]) :=
  ⟨(hard_stop_policy "b" failBehavior passBehavior passBehavior passBehavior passBehavior
      passBehavior).1 (createResult.addError .WRONG_ASPECT none) rfl rfl,
   (hard_stop_policy "b" passBehavior raiseBehavior failBehavior passBehavior passBehavior
      passBehavior).2.1 (.ok createResult) (.error "boom")
      (createResult.addError .WRONG_ASPECT none) rfl rfl rfl rfl rfl,
   (hard_stop_policy "b" passBehavior failBehavior passBehavior raiseBehavior failBehavior
      passBehavior).2.2 (.ok createResult)
      (.ok (createResult.addError .WRONG_ASPECT none)) (.ok createResult)
      (.error "boom") (.ok (createResult.addError .WRONG_ASPECT none)) (.ok createResult)
      rfl rfl rfl rfl rfl rfl rfl rfl⟩

/-! ## C5: the blockiness metric -/

/-- C5 counterexample: on a 32 × 24 grayscale image `_calculate_blockiness`
returns `1/2` — the average of the two per-axis means (`0` over two
horizontal boundary rows, `1` over one vertical boundary column) — while
the single pooled average over all three boundary lines is `1/3`, so the
metric does not equal "the average over all horizontal and vertical
boundary lines of the mean absolute pixel difference across each boundary
line". -/
theorem blockiness_not_pooled_average :
    calculateBlockiness blockinessCex = 1 / 2 ∧
    blockinessPooledSpec blockinessCex = 1 / 3 ∧
    calculateBlockiness blockinessCex ≠ blockinessPooledSpec blockinessCex := by
  have hys : hBoundaries blockinessCex = [8, 16] := by decide
  have hxs : vBoundaries blockinessCex = [8] := by decide
  have hrow : ∀ y, rowBoundaryMean blockinessCex y = 0 := by
    intro y
    simp [rowBoundaryMean, sumRange, blockinessCex]
  have hcol : colBoundaryMean blockinessCex 8 = 1 := by
    have hterm : ∀ y : Nat,
        |blockinessCex.pix y 8 - blockinessCex.pix y (8 - 1)| = 1 := by
      intro y
      norm_num [blockinessCex]
    simp only [colBoundaryMean, sumRange, hterm]
    norm_num [blockinessCex, List.sum_replicate, List.map_const']
  have h1 : calculateBlockiness blockinessCex = 1 / 2 := by
    rw [calculateBlockiness]
    rw [if_neg (by norm_num [blockinessCex])]
    simp only [hys, hxs, hrow, hcol, List.map_cons, List.map_nil]
    norm_num
  have h2 : blockinessPooledSpec blockinessCex = 1 / 3 := by
    rw [blockinessPooledSpec]
    simp only [hys, hxs, hrow, hcol, List.map_cons, List.map_nil]
    norm_num [listMean]
  exact ⟨h1, h2, by rw [h1, h2]; norm_num⟩

/-- C5 (amended): for images with at least one 8-aligned boundary along
each axis (and at least 16 pixels in each dimension), the blockiness metric
equals the average of the two per-axis means of boundary-line mean absolute
differences — horizontal mean-of-means and vertical mean-of-means, averaged
(the pooled average over all boundary lines only when both axes have the
same number of boundaries); the JPEG-quality check (a total function, so it
never raises) flags `LOW_QUALITY` exactly when that value strictly exceeds
`JPEG_BLOCKINESS_THRESHOLD`, silently does nothing when `cv2.imdecode`
returns nothing, and runs only when the sniffed format is `"JPEG"` — on any
other sniff outcome the format stage never consults the decoded grayscale
image at all. -/
theorem blockiness_axis_means_and_gate :
    (∀ img : GrayImage, ¬(img.h < 16 ∨ img.w < 16) →
      hBoundaries img ≠ [] → vBoundaries img ≠ [] →
      calculateBlockiness img = blockinessAxisMeansSpec img) ∧
    (∀ (img : GrayImage) (r : ValidationResult),
      (checkJpegQuality (some img) r).codes = r.codes ++
        (if calculateBlockiness img > Config.JPEG_BLOCKINESS_THRESHOLD then
          [ErrorCode.LOW_QUALITY] else []) ∧
      checkJpegQuality none r = r) ∧
    (∀ (width height : Nat) (sniff : Except String (Option String))
      (decoded : Option GrayImage), sniffedFormat sniff ≠ some "JPEG" →
      formatValidate width height true sniff decoded =
        formatValidate width height true sniff none) := by
  refine ⟨?_, ?_, ?_⟩
  · intro img hsize hh hv
    rw [calculateBlockiness, if_neg hsize,
      if_pos ⟨List.length_pos.mpr hh, List.length_pos.mpr hv⟩]
    simp [blockinessAxisMeansSpec, listMean]
  · intro img r
    constructor
    · by_cases hth : calculateBlockiness img > Config.JPEG_BLOCKINESS_THRESHOLD
      · simp [checkJpegQuality, hth]
      · simp [checkJpegQuality, hth]
    · rfl
  · intro width height sniff decoded hfmt
    cases sniff with
    | error e => rfl
    | ok fmt =>
        simp only [sniffedFormat] at hfmt
        simp [formatValidate, checkFormat, hfmt]

/-- Witness for C5 (amended): a flat 17 × 17 image and a PNG sniff. -/
theorem blockiness_axis_means_and_gate_witness :
    (¬(flatImage17.h < 16 ∨ flatImage17.w < 16) ∧
      hBoundaries flatImage17 ≠ [] ∧ vBoundaries flatImage17 ≠ [] ∧
      calculateBlockiness flatImage17 = blockinessAxisMeansSpec flatImage17) ∧
    (sniffedFormat (.ok (some "PNG")) ≠ some "JPEG" ∧
      formatValidate 600 800 true (.ok (some "PNG")) (some flatImage17) =
        formatValidate 600 800 true (.ok (some "PNG")) none) :=
  ⟨⟨by decide, by decide, by decide,
    blockiness_axis_means_and_gate.1 flatImage17 (by decide) (by decide) (by decide)⟩,
   ⟨by decide,
    blockiness_axis_means_and_gate.2.2 600 800 (.ok (some "PNG")) (some flatImage17)
      (by decide)⟩⟩

/-! ## Lemmas about substrings, lowering and stripping -/

theorem isSubOf_iff (pat : List Char) : ∀ s : List Char,
    isSubOf pat s = true ↔ pat <:+: s := by
  intro s
  induction s with
  | nil =>
      simp only [isSubOf, List.isEmpty_iff]
      constructor
      · rintro rfl; exact List.infix_refl []
      · intro h; exact List.eq_nil_of_infix_nil h
  | cons c t ih =>
      simp only [isSubOf, Bool.or_eq_true, List.isPrefixOf_iff_prefix, ih,
        List.infix_cons_iff]

theorem toLower_of_ws (c : Char) (h : c.isWhitespace = true) : c.toLower = c := by
  simp only [Char.isWhitespace, Bool.or_eq_true, decide_eq_true_eq] at h
  rcases h with ((rfl | rfl) | rfl) | rfl <;> decide

theorem infix_lowerL_dropWhile (pat : List Char) (hne : pat ≠ [])
    (hnws : ∀ c ∈ pat, c.isWhitespace = false) :
    ∀ t : List Char, pat <:+: lowerL t →
      pat <:+: lowerL (t.dropWhile Char.isWhitespace) := by
  intro t
  induction t with
  | nil => intro h; simpa using h
  | cons c t ih =>
      intro h
      have h' : pat <+: (c.toLower :: lowerL t) ∨ pat <:+: lowerL t :=
        List.infix_cons_iff.mp (by simpa [lowerL] using h)
      by_cases hc : c.isWhitespace
      · rw [List.dropWhile_cons, if_pos hc]
        rcases h' with hpre | hinf
        · exfalso
          obtain ⟨p0, pr, rfl⟩ := List.exists_cons_of_ne_nil hne
          have hp0 : p0 = c.toLower := (List.cons_prefix_cons.mp hpre).1
          rw [toLower_of_ws c hc] at hp0
          have hwf := hnws p0 (List.mem_cons_self _ _)
          rw [hp0, hc] at hwf
          exact Bool.noConfusion hwf
        · exact ih hinf
      · rw [List.dropWhile_cons, if_neg hc]
        simpa [lowerL] using h

theorem infix_lowerL_stripL (pat : List Char) (hne : pat ≠ [])
    (hnws : ∀ c ∈ pat, c.isWhitespace = false) (t : List Char)
    (h : pat <:+: lowerL t) : pat <:+: lowerL (stripL t) := by
  have h1 : pat <:+: lowerL (t.dropWhile Char.isWhitespace) :=
    infix_lowerL_dropWhile pat hne hnws t h
  have hrev : pat.reverse <:+: lowerL (t.dropWhile Char.isWhitespace).reverse := by
    rw [show lowerL (t.dropWhile Char.isWhitespace).reverse =
        (lowerL (t.dropWhile Char.isWhitespace)).reverse from
      List.map_reverse _ _]
    exact List.reverse_infix.mpr h1
  have hne' : pat.reverse ≠ [] := by simpa using hne
  have hnws' : ∀ c ∈ pat.reverse, c.isWhitespace = false := fun c hc =>
    hnws c (List.mem_reverse.mp hc)
  have h2 : pat.reverse <:+:
      lowerL ((t.dropWhile Char.isWhitespace).reverse.dropWhile Char.isWhitespace) :=
    infix_lowerL_dropWhile pat.reverse hne' hnws' _ hrev
  have h3 : pat.reverse.reverse <:+:
      (lowerL ((t.dropWhile Char.isWhitespace).reverse.dropWhile
        Char.isWhitespace)).reverse :=
    List.reverse_infix.mpr h2
  rw [List.reverse_reverse] at h3
  rw [show lowerL (stripL t) =
      (lowerL ((t.dropWhile Char.isWhitespace).reverse.dropWhile
        Char.isWhitespace)).reverse from by
    simp [stripL, lowerL, List.map_reverse]]
  exact h3

theorem parseResponse_fallback (resp : List Char)
    (hfb : fallbackReached resp = true) :
    parseResponse resp = fallbackParse (stripL resp) := by
  have hfb' := hfb
  unfold fallbackReached at hfb'
  rw [Bool.and_eq_true] at hfb'
  have hne : resp.isEmpty = false := by
    rcases hfb' with ⟨h1, _⟩
    simpa using h1
  unfold parseResponse
  rw [if_neg (by simp [hne])]
  cases hc : jsonCandidate (stripL resp) with
  | none => simp [hc]
  | some c =>
      by_cases hce : c.isEmpty
      · simp [hc, hce]
      · cases hl : jsonLoads (String.mk c) with
        | none => simp [hc, hce, hl]
        | some j =>
            cases j with
            | jObj fields =>
                exfalso
                rw [hc] at hfb'
                have h2 := hfb'.2
                simp [hce, hl] at h2
            | jNull => simp [hc, hce, hl]
            | jBool b => simp [hc, hce, hl]
            | jNum q => simp [hc, hce, hl]
            | jStr s => simp [hc, hce, hl]
            | jArr elems => simp [hc, hce, hl]

/-! ## C7: accessories-response parsing -/

/-- C7 counterexample: the response `'sunglasses {}'` is itself not JSON
and contains the word "sunglasses", yet the parser extracts the brace slice
`'{}'`, parses it successfully, takes the JSON branch, and reports no
accessories — the keyword fallback is never reached, so "for every non-JSON
response text that contains the word sunglasses the fallback yields an
accessories error" fails here. -/
theorem accessories_sunglasses_counterexample :
    (jsonLoads cexResp).isNone = true ∧
    isSubOf "sunglasses".data (lowerL cexResp.data) = true ∧
    fallbackReached cexResp.data = false ∧
    (parseResponse cexResp.data).accessoriesDetected = false ∧
    (accessoriesAddErrors (parseResponse cexResp.data) createResult).codes = [] := by
  refine ⟨?_, ?_, ?_, ?_, ?_⟩ <;> decide

/-- C7 (amended): the exact response
`'{"accessories_detected": true, "filters_detected": false}'` parses to
`accessories_detected = true`, `filters_detected = false`, and the stage
adds exactly one accessories error and no filters error; and every response
on which the parser actually reaches the keyword fallback (non-empty, and
the brace slice is absent, empty, or does not parse as a JSON object) that
contains the word "sunglasses" case-insensitively yields
`accessories_detected = true` and an accessories error. -/
theorem accessories_response_parsing :
    ((parseResponse vlmJsonResp.data).accessoriesDetected = true ∧
      (parseResponse vlmJsonResp.data).filtersDetected = false ∧
      (accessoriesAddErrors (parseResponse vlmJsonResp.data) createResult).codes =
        [ErrorCode.ACCESSORIES_DETECTED]) ∧
    (∀ response : List Char, fallbackReached response = true →
      isSubOf "sunglasses".data (lowerL response) = true →
      (parseResponse response).accessoriesDetected = true ∧
      ErrorCode.ACCESSORIES_DETECTED ∈
        (accessoriesAddErrors (parseResponse response) createResult).codes) := by
  constructor
  · refine ⟨by decide, by decide, by decide⟩
  · intro resp hfb hsun
    have hstep := parseResponse_fallback resp hfb
    have hsub : isSubOf "sunglass".data (lowerL (stripL resp)) = true := by
      rw [isSubOf_iff]
      have h8 : "sunglass".data <+: "sunglasses".data := by decide
      have h10 : "sunglasses".data <:+: lowerL resp := (isSubOf_iff _ _).mp hsun
      have h11 : "sunglass".data <:+: lowerL resp := h8.isInfix.trans h10
      exact infix_lowerL_stripL "sunglass".data (by decide) (by decide) resp h11
    have hacc : (fallbackParse (stripL resp)).accessoriesDetected = true := by
      simp only [fallbackParse]
      rw [List.any_eq_true]
      exact ⟨"sunglass", by decide, hsub⟩
    refine ⟨by rw [hstep]; exact hacc, ?_⟩
    rw [hstep]
    simp only [accessoriesAddErrors, hacc, if_true]
    by_cases hf : (fallbackParse (stripL resp)).filtersDetected <;> simp [hf]

/-- Witness for C7 (amended): the prose response
`'He is wearing sunglasses.'` reaches the fallback and yields the
accessories error. -/
theorem accessories_response_parsing_witness :
    fallbackReached "He is wearing sunglasses.".data = true ∧
    isSubOf "sunglasses".data (lowerL "He is wearing sunglasses.".data) = true ∧
    (parseResponse "He is wearing sunglasses.".data).accessoriesDetected = true ∧
    ErrorCode.ACCESSORIES_DETECTED ∈
      (accessoriesAddErrors (parseResponse "He is wearing sunglasses.".data)
        createResult).codes :=
  ⟨by decide, by decide,
   (accessories_response_parsing.2 "He is wearing sunglasses.".data
      (by decide) (by decide)).1,
   (accessories_response_parsing.2 "He is wearing sunglasses.".data
      (by decide) (by decide)).2⟩

end PhotoVal
